import Mathlib

/-!
Verification of the core logic of `sekoia-event-exporter`
(`src/sekoia_event_exporter/cli.py`): the task-status poller
(`poll_status`, lines 492-599) and the SSE-C / S3 configuration builder
(`build_s3_config`, lines 241-335, together with
`generate_random_b64_sse_key`, lines 146-166).

Modelling conventions:
- Python `str | None` values are `Option String`; Python truthiness on them
  (`if s:`) is `truthyStr` (None and the empty string are falsy).
- JSON integers are `Int`; `data.get(k, 0) or 0` is `Option Int` + `getD 0`
  (a missing key and a JSON null both yield 0).
- Wall-clock time is `ℚ` (seconds).  `datetime.now()` is read twice per loop
  iteration (once for the deadline check, once for `current_poll_time`), so the
  loop takes two time streams `checkTime pollTime : Nat → ℚ` indexed by the
  iteration number.  `time.sleep` only makes time pass and needs no model.
- The HTTP fetch of iteration `i` is `fetch i : TaskData` (the parsed JSON
  body; `attributes.download_url` and `attributes.error` are flattened into
  fields).  Transport errors propagate in Python and end the loop; they are
  outside the loop logic modelled here.
- `os.urandom(32)` and `hashlib.md5(...).digest()` are external effects and
  are passed in as parameters (`randomBytes`, `md5sum`).
- `base64.b64decode` / `b64encode` (CPython, non-strict mode) are implemented
  below: characters outside the alphabet are skipped, a completed pad
  sequence ends decoding, and a leftover partial quadruple at end of input is
  a `binascii.Error` (modelled as `Except.error ()`).  Inputs are assumed
  ASCII (a non-ASCII key would raise an uncaught `ValueError` in Python; no
  claim exercises that path).
-/

/-- Python truthiness of an optional string: `None` and `""` are falsy. -/
def truthyStr : Option String → Bool
  | some s => s != ""
  | none => false

/-- `get_value` (cli.py lines 257-262): the CLI argument wins whenever it is
not `None` (even when it is the empty string); otherwise the environment
variable is consulted. -/
def getValue (arg env : Option String) : Option String :=
  match arg with
  | some v => some v
  | none => env

/-- `if v: s3_config[k] = v` — keep an optional string only when truthy. -/
def keepTruthy (o : Option String) : Option String :=
  if truthyStr o then o else none

/-! ## Base64 (CPython `base64.b64encode` / `b64decode`, non-strict) -/

/-- Index of a character in the standard base64 alphabet, `none` otherwise. -/
def b64val (c : Char) : Option Nat :=
  let n := c.toNat
  if 65 ≤ n ∧ n ≤ 90 then some (n - 65)
  else if 97 ≤ n ∧ n ≤ 122 then some (n - 97 + 26)
  else if 48 ≤ n ∧ n ≤ 57 then some (n - 48 + 52)
  else if n = 43 then some 62
  else if n = 47 then some 63
  else none

/-- Character of the standard base64 alphabet at index `v < 64`. -/
def b64char (v : Nat) : Char :=
  if v < 26 then Char.ofNat (65 + v)
  else if v < 52 then Char.ofNat (97 + (v - 26))
  else if v < 62 then Char.ofNat (48 + (v - 52))
  else if v = 62 then '+'
  else '/'

/-- `base64.b64encode` on a byte list: groups of three bytes become four
alphabet characters; a final group of one or two bytes is padded with
`'='`. -/
def b64encodeBytes : List Nat → List Char
  | [] => []
  | [a] => [b64char (a / 4), b64char (a % 4 * 16), '=', '=']
  | [a, b] => [b64char (a / 4), b64char (a % 4 * 16 + b / 16), b64char (b % 16 * 4), '=']
  | a :: b :: c :: rest =>
      b64char (a / 4) :: b64char (a % 4 * 16 + b / 16) ::
      b64char (b % 16 * 4 + c / 64) :: b64char (c % 64) :: b64encodeBytes rest

/-- `base64.b64encode(...).decode("utf-8")` as a string. -/
def b64encode (l : List Nat) : String := String.mk (b64encodeBytes l)

/-- Decoding worker, mirroring CPython `binascii.a2b_base64` in non-strict
mode.  `qp` is the position inside the current quadruple, `acc` the pending
bits, `pads` the number of pad characters seen at `qp ≥ 2` since the last
data character.  Characters outside the alphabet are skipped (leaving `pads`
untouched); a pad sequence completing a quadruple ends decoding
successfully; every decoded data character resets `pads` to zero (the
`pads = 0` assignment in the C loop); input ending inside a quadruple is a
padding error. -/
def b64decAux : List Char → Nat → Nat → Nat → Except Unit (List Nat)
  | [], 0, _, _ => .ok []
  | [], _ + 1, _, _ => .error ()
  | c :: rest, qp, acc, pads =>
    if c = '=' then
      if 2 ≤ qp then
        if 4 ≤ qp + pads + 1 then .ok []
        else b64decAux rest qp acc (pads + 1)
      else b64decAux rest qp acc pads
    else
      match b64val c with
      | none => b64decAux rest qp acc pads
      | some v =>
        if qp = 0 then b64decAux rest 1 v 0
        else if qp = 1 then
          (b64decAux rest 2 (v % 16) 0).map (fun out => (acc * 4 + v / 16) :: out)
        else if qp = 2 then
          (b64decAux rest 3 (v % 4) 0).map (fun out => (acc * 16 + v / 4) :: out)
        else
          (b64decAux rest 0 0 0).map (fun out => (acc * 64 + v) :: out)

/-- `base64.b64decode` on a string; `Except.error ()` is `binascii.Error`. -/
def b64decode (s : String) : Except Unit (List Nat) :=
  b64decAux s.data 0 0 0

/-! ## SSE-C / S3 configuration builder (`build_s3_config`) -/

/-- `generate_random_b64_sse_key` (cli.py lines 146-166); the
`os.urandom(32)` draw is the `randomBytes` parameter. -/
def generate_random_b64_sse_key (randomBytes : List Nat) : String :=
  b64encode randomBytes

/-- The CLI arguments consumed by `build_s3_config` (argparse attributes;
every one defaults to `None`, `no_sse_c` to `False`).  The `s3_prefix`
attribute is named `s3_pfx` here. -/
structure CliArgs where
  s3_bucket : Option String := none
  s3_pfx : Option String := none
  s3_access_key : Option String := none
  s3_secret_key : Option String := none
  s3_endpoint : Option String := none
  s3_region : Option String := none
  no_sse_c : Bool := false
  s3_sse_c_key : Option String := none
  s3_sse_c_key_md5 : Option String := none
  s3_sse_c_algorithm : Option String := none
deriving DecidableEq

/-- The environment variables consumed by `build_s3_config`
(`os.getenv`, absent is `none`).  `S3_PREFIX` is named `S3_PFX` here. -/
structure CliEnv where
  S3_BUCKET : Option String := none
  S3_PFX : Option String := none
  S3_ACCESS_KEY_ID : Option String := none
  S3_SECRET_ACCESS_KEY : Option String := none
  S3_ENDPOINT_URL : Option String := none
  S3_REGION_NAME : Option String := none
  S3_SSE_C_KEY : Option String := none
  S3_SSE_C_KEY_MD5 : Option String := none
  S3_SSE_C_ALGORITHM : Option String := none
deriving DecidableEq

/-- The `s3_config` dict built by `build_s3_config`: a field is `some v`
exactly when the corresponding key is present in the dict.  The dict key
`"prefix"` is the field `pfx`, and the side-channel key `"_generated_key"`
is the field `generated_key`. -/
structure S3Config where
  bucket_name : Option String := none
  pfx : Option String := none
  access_key_id : Option String := none
  secret_access_key : Option String := none
  endpoint_url : Option String := none
  region_name : Option String := none
  generated_key : Option String := none
  sse_customer_key : Option String := none
  sse_customer_algorithm : Option String := none
  sse_customer_key_md5 : Option String := none
deriving DecidableEq

/-- Python dict falsiness: the dict is empty iff no key was ever set. -/
def S3Config.isEmpty (c : S3Config) : Bool :=
  c.bucket_name.isNone && c.pfx.isNone && c.access_key_id.isNone &&
  c.secret_access_key.isNone && c.endpoint_url.isNone && c.region_name.isNone &&
  c.generated_key.isNone && c.sse_customer_key.isNone &&
  c.sse_customer_algorithm.isNone && c.sse_customer_key_md5.isNone

/-- The two `ConfigError` raise sites inside the SSE-C block of
`build_s3_config` (lines 312-319), distinguished by their messages. -/
inductive ConfigError
  | invalidKeyLength (n : Nat)
  | invalidKeyEncoding
deriving DecidableEq

/-- Lines 264-289 of `build_s3_config`: the non-encryption S3 settings,
each included only when truthy. -/
def baseConfig (args : CliArgs) (env : CliEnv) : S3Config :=
  { bucket_name := keepTruthy (getValue args.s3_bucket env.S3_BUCKET)
    pfx := keepTruthy (getValue args.s3_pfx env.S3_PFX)
    access_key_id := keepTruthy (getValue args.s3_access_key env.S3_ACCESS_KEY_ID)
    secret_access_key := keepTruthy (getValue args.s3_secret_key env.S3_SECRET_ACCESS_KEY)
    endpoint_url := keepTruthy (getValue args.s3_endpoint env.S3_ENDPOINT_URL)
    region_name := keepTruthy (getValue args.s3_region env.S3_REGION_NAME) }

/-- The `sse_key` local variable after lines 293-304: `None` when SSE-C is
disabled; otherwise the explicit/environment value, replaced by a freshly
generated key when it is falsy and `auto_generate_key` holds. -/
def resolvedSseKey (args : CliArgs) (env : CliEnv) (autoGen : Bool)
    (randomBytes : List Nat) : Option String :=
  if args.no_sse_c then none
  else
    let k := getValue args.s3_sse_c_key env.S3_SSE_C_KEY
    if !truthyStr k && autoGen then some (generate_random_b64_sse_key randomBytes) else k

/-- Whether line 302 runs, i.e. `_generated_key` is stashed in the dict. -/
def sseKeyGenerated (args : CliArgs) (env : CliEnv) (autoGen : Bool) : Bool :=
  !args.no_sse_c && !truthyStr (getValue args.s3_sse_c_key env.S3_SSE_C_KEY) && autoGen

/-- Line 335: `return s3_config if s3_config else None`. -/
def finishConfig (cfg : S3Config) : Except ConfigError (Option S3Config) :=
  .ok (if cfg.isEmpty then none else some cfg)

/-- The `s3_config` dict just before the key-validation block: the plain
settings of lines 264-289, plus the `_generated_key` stash of line 302
when the auto-generation branch ran. -/
def baseWithGenerated (args : CliArgs) (env : CliEnv) (autoGen : Bool)
    (randomBytes : List Nat) : S3Config :=
  if sseKeyGenerated args env autoGen
  then { baseConfig args env with
         generated_key := some (generate_random_b64_sse_key randomBytes) }
  else baseConfig args env

/-- Lines 321-332: the SSE-C entries added to the dict after a successful
key validation — the key itself, the algorithm (explicit truthy value or
`"AES256"`), and the MD5 digest (explicit truthy value, else the base64 of
`md5sum` over the decoded key bytes). -/
def withSseFields (args : CliArgs) (env : CliEnv) (base : S3Config) (key : String)
    (keyBytes : List Nat) (md5sum : List Nat → List Nat) : S3Config :=
  { base with
    sse_customer_key := some key
    sse_customer_algorithm :=
      some ((keepTruthy
        (getValue args.s3_sse_c_algorithm env.S3_SSE_C_ALGORITHM)).getD "AES256")
    sse_customer_key_md5 :=
      some (match keepTruthy
              (getValue args.s3_sse_c_key_md5 env.S3_SSE_C_KEY_MD5) with
            | some v => v
            | none => b64encode (md5sum keyBytes)) }

/-- `build_s3_config` (cli.py lines 241-335).  `md5sum` stands for
`hashlib.md5(...).digest()`.  The `try`/`except binascii.Error` around the
decode (lines 308-319) catches only the decode failure; the length
`ConfigError` raised inside the `try` propagates. -/
def build_s3_config (args : CliArgs) (env : CliEnv) (autoGen : Bool)
    (randomBytes : List Nat) (md5sum : List Nat → List Nat) :
    Except ConfigError (Option S3Config) :=
  let base := baseWithGenerated args env autoGen randomBytes
  match resolvedSseKey args env autoGen randomBytes with
  | none => finishConfig base
  | some key =>
    if key = "" then finishConfig base
    else
      match b64decode key with
      | .error _ => .error ConfigError.invalidKeyEncoding
      | .ok keyBytes =>
        if keyBytes.length ≠ 32 then .error (ConfigError.invalidKeyLength keyBytes.length)
        else finishConfig (withSseFields args env base key keyBytes md5sum)

/-! ## Task-status poller (`poll_status`) -/

/-- The parsed JSON body returned by `fetch_task`:
`attributes.download_url` and `attributes.error` are flattened into fields;
`none` stands for an absent key or a JSON null. -/
structure TaskData where
  status : Option String := none
  total : Option Int := none
  progress : Option Int := none
  downloadUrl : Option String := none
  message : Option String := none
  attrError : Option String := none
deriving DecidableEq

/-- `total = data.get("total", 0) or 0` (line 547). -/
def totalOf (d : TaskData) : Int := d.total.getD 0

/-- `progress_count = data.get("progress", 0) or 0` (line 548). -/
def progressOf (d : TaskData) : Int := d.progress.getD 0

/-- The error detail attached to a task failure: the raised message embeds
either a string (from `message` or `attributes.error`) or the raw response
dict. -/
inductive ErrDetail
  | msg (s : String)
  | raw (d : TaskData)
deriving DecidableEq

/-- Line 544: `data.get("message") or data.get("attributes", dict()).get("error")
or data`, with Python `or` (the empty string is falsy). -/
def errDetail (d : TaskData) : ErrDetail :=
  if truthyStr d.message then .msg (d.message.getD "")
  else if truthyStr d.attrError then .msg (d.attrError.getD "")
  else .raw d

/-- Progress state carried across loop iterations: `last_progress_count`
and `last_poll_time` (lines 519-520). -/
structure PollSt where
  lastProgress : Option Int
  lastPollTime : Option ℚ
deriving DecidableEq

/-- The ETA shown in the progress line: either a numeric estimate in
seconds or the literal "calculating..." text. -/
inductive EtaReport
  | calculating
  | seconds (q : ℚ)
deriving DecidableEq

/-- Lines 554-567: the ETA computed on a `total > 0` iteration from the
previous sample and the current one. -/
def computeEta (lastPc : Option Int) (lastT : Option ℚ) (now : ℚ)
    (pc total : Int) : EtaReport :=
  match lastPc, lastT with
  | some p0, some t0 =>
    if p0 < pc then
      let timeDiff : ℚ := now - t0
      let progressDiff : Int := pc - p0
      if 0 < timeDiff ∧ 0 < progressDiff then
        .seconds (((total - pc : Int) : ℚ) / (((progressDiff : Int) : ℚ) / timeDiff))
      else .calculating
    else .calculating
  | _, _ => .calculating

/-- Lines 569-571: the tracking variables are reassigned inside the
`total > 0` branch only. -/
def stepTracking (st : PollSt) (now : ℚ) (pc total : Int) : PollSt :=
  if 0 < total then ⟨some pc, some now⟩ else st

/-- What a non-terminal iteration prints: the progress bar with percentage
and ETA (`total > 0`), or the spinner line (unknown total). -/
inductive ProgressReport
  | progressBar (pct : ℚ) (eta : EtaReport)
  | spinner (status : Option String)
deriving DecidableEq

/-- How `poll_status` ends, plus the total number of `fetch_task` calls and
the list of progress lines printed by non-terminal iterations.
`outOfFuel` is the artefact of bounding the unbounded `while True`. -/
inductive PollResult
  | success (url : Option String)
  | taskFailed (state : Option String) (err : ErrDetail)
  | timeout
  | outOfFuel
deriving DecidableEq

/-- Line 523: `if deadline and datetime.now() >= deadline`. -/
def deadlineHit : Option ℚ → ℚ → Bool
  | some d, now => decide (d ≤ now)
  | none, _ => false

/-- Line 516: `deadline = (start_time + timedelta(seconds=max_wait_s)) if
max_wait_s else None` — note the Python truthiness test on `max_wait_s`:
both `None` and `0` leave the deadline unset. -/
def mkDeadline (startTime : ℚ) (maxWait : Option Int) : Option ℚ :=
  match maxWait with
  | some w => if w ≠ 0 then some (startTime + (w : ℚ)) else none
  | none => none

/-- The `while True` loop of `poll_status` (lines 522-599).  `i` counts the
fetches performed so far; `checkTime i` / `pollTime i` are the two
`datetime.now()` reads of iteration `i`; the result triple is
(exit, total number of fetches, progress lines printed from here on). -/
def pollLoop (dl : Option ℚ) (checkTime pollTime : Nat → ℚ)
    (fetch : Nat → TaskData) : Nat → PollSt → Nat → PollResult × Nat × List ProgressReport
  | i, _, 0 => (.outOfFuel, i, [])
  | i, st, fuel + 1 =>
    if deadlineHit dl (checkTime i) then (.timeout, i, [])
    else
      let d := fetch i
      if d.status = some "FINISHED" then (.success d.downloadUrl, i + 1, [])
      else if d.status = some "FAILED" ∨ d.status = some "CANCELED" ∨
            d.status = some "CANCELLED" then
        (.taskFailed d.status (errDetail d), i + 1, [])
      else
        let t := pollTime i
        let total := totalOf d
        let pc := progressOf d
        let rep := if 0 < total then
            ProgressReport.progressBar (100 * (pc : ℚ) / (total : ℚ))
              (computeEta st.lastProgress st.lastPollTime t pc total)
          else ProgressReport.spinner d.status
        let out := pollLoop dl checkTime pollTime fetch (i + 1) (stepTracking st t pc total) fuel
        (out.1, out.2.1, rep :: out.2.2)

/-- `poll_status` (cli.py lines 492-599) with the clock and the HTTP layer
made explicit; `fuel` bounds the otherwise unbounded loop. -/
def poll_status (maxWait : Option Int) (startTime : ℚ)
    (checkTime pollTime : Nat → ℚ) (fetch : Nat → TaskData) (fuel : Nat) :
    PollResult × Nat × List ProgressReport :=
  pollLoop (mkDeadline startTime maxWait) checkTime pollTime fetch 0 ⟨none, none⟩ fuel

/-! ## Concrete sample inputs used by witness and counterexample theorems -/

deriving instance DecidableEq for Except

/-- A valid 256-bit SSE-C key: base64 text decoding to 32 zero bytes. -/
def sampleKey32 : String := "AAAAAAAAAAAAAAAAAAAAAAAAAAAAAAAAAAAAAAAAAAA="

/-- A stand-in for `hashlib.md5(...).digest()` in concrete witnesses. -/
def dummyMd5 : List Nat → List Nat := fun _ => List.replicate 16 7

/-- Arguments carrying an explicit valid SSE-C key. -/
def argsWithKey : CliArgs := { s3_sse_c_key := some sampleKey32 }

/-- Arguments disabling SSE-C while also supplying a bucket and a key. -/
def argsDisabledBucket : CliArgs :=
  { no_sse_c := true, s3_bucket := some "bkt", s3_sse_c_key := some sampleKey32 }

/-- Arguments with a bucket and no key material at all. -/
def argsBucketOnly : CliArgs := { s3_bucket := some "bkt" }

/-- A fetched status in the `FINISHED` state with a download URL. -/
def finSample : TaskData := { status := some "FINISHED", downloadUrl := some "https://x/y" }

/-- A fetched status in the `CANCELLED` state with a `message` field. -/
def cancSample : TaskData := { status := some "CANCELLED", message := some "boom" }

/-- A non-terminal fetched status with a known total. -/
def runSample : TaskData := { status := some "RUNNING", total := some 100, progress := some 20 }

/-- A non-terminal fetched status with no total. -/
def pendSample : TaskData := { status := some "PENDING" }

/-! ## Helper lemmas: the base64 codec round-trips on byte lists -/

theorem b64val_b64char : ∀ v, v < 64 → b64val (b64char v) = some v := by decide

theorem b64char_ne_pad : ∀ v, v < 64 → b64char v ≠ '=' := by decide

theorem b64decAux_step0 (c : Char) (rest : List Char) (acc pads v : Nat)
    (hne : c ≠ '=') (hv : b64val c = some v) :
    b64decAux (c :: rest) 0 acc pads = b64decAux rest 1 v 0 := by
  simp [b64decAux, hne, hv]

theorem b64decAux_step1 (c : Char) (rest : List Char) (acc pads v : Nat)
    (hne : c ≠ '=') (hv : b64val c = some v) :
    b64decAux (c :: rest) 1 acc pads =
      (b64decAux rest 2 (v % 16) 0).map (fun out => (acc * 4 + v / 16) :: out) := by
  simp [b64decAux, hne, hv]

theorem b64decAux_step2 (c : Char) (rest : List Char) (acc pads v : Nat)
    (hne : c ≠ '=') (hv : b64val c = some v) :
    b64decAux (c :: rest) 2 acc pads =
      (b64decAux rest 3 (v % 4) 0).map (fun out => (acc * 16 + v / 4) :: out) := by
  simp [b64decAux, hne, hv]

theorem b64decAux_step3 (c : Char) (rest : List Char) (acc pads v : Nat)
    (hne : c ≠ '=') (hv : b64val c = some v) :
    b64decAux (c :: rest) 3 acc pads =
      (b64decAux rest 0 0 0).map (fun out => (acc * 64 + v) :: out) := by
  simp [b64decAux, hne, hv]

theorem b64decAux_pad_cont (rest : List Char) (acc : Nat) :
    b64decAux ('=' :: rest) 2 acc 0 = b64decAux rest 2 acc 1 := by
  simp [b64decAux]

theorem b64decAux_pad_done_q2 (rest : List Char) (acc : Nat) :
    b64decAux ('=' :: rest) 2 acc 1 = .ok [] := by
  simp [b64decAux]

theorem b64decAux_pad_done_q3 (rest : List Char) (acc : Nat) :
    b64decAux ('=' :: rest) 3 acc 0 = .ok [] := by
  simp [b64decAux]

theorem b64decAux_encodeBytes (l : List Nat) (h : ∀ b ∈ l, b < 256) :
    b64decAux (b64encodeBytes l) 0 0 0 = .ok l := by
  induction l using b64encodeBytes.induct with
  | case1 => simp [b64encodeBytes, b64decAux]
  | case2 a =>
    have ha : a < 256 := h a (by simp)
    rw [b64encodeBytes,
      b64decAux_step0 _ _ _ _ _ (b64char_ne_pad _ (by omega)) (b64val_b64char _ (by omega)),
      b64decAux_step1 _ _ _ _ _ (b64char_ne_pad _ (by omega)) (b64val_b64char _ (by omega)),
      b64decAux_pad_cont, b64decAux_pad_done_q2]
    simp [Except.map]
    omega
  | case3 a b =>
    have ha : a < 256 := h a (by simp)
    have hb : b < 256 := h b (by simp)
    rw [b64encodeBytes,
      b64decAux_step0 _ _ _ _ _ (b64char_ne_pad _ (by omega)) (b64val_b64char _ (by omega)),
      b64decAux_step1 _ _ _ _ _ (b64char_ne_pad _ (by omega)) (b64val_b64char _ (by omega)),
      b64decAux_step2 _ _ _ _ _ (b64char_ne_pad _ (by omega)) (b64val_b64char _ (by omega)),
      b64decAux_pad_done_q3]
    simp [Except.map]
    constructor
    · omega
    · omega
  | case4 a b c rest ih =>
    have ha : a < 256 := h a (by simp)
    have hb : b < 256 := h b (by simp)
    have hc : c < 256 := h c (by simp)
    have hrest : ∀ x ∈ rest, x < 256 := fun x hx => h x (by simp [hx])
    rw [b64encodeBytes,
      b64decAux_step0 _ _ _ _ _ (b64char_ne_pad _ (by omega)) (b64val_b64char _ (by omega)),
      b64decAux_step1 _ _ _ _ _ (b64char_ne_pad _ (by omega)) (b64val_b64char _ (by omega)),
      b64decAux_step2 _ _ _ _ _ (b64char_ne_pad _ (by omega)) (b64val_b64char _ (by omega)),
      b64decAux_step3 _ _ _ _ _ (b64char_ne_pad _ (by omega)) (b64val_b64char _ (by omega)),
      ih hrest]
    simp [Except.map]
    refine ⟨by omega, by omega, by omega⟩

theorem b64decode_b64encode (l : List Nat) (h : ∀ b ∈ l, b < 256) :
    b64decode (b64encode l) = .ok l := by
  unfold b64decode b64encode
  simpa using b64decAux_encodeBytes l h

theorem b64encode_ne_empty (l : List Nat) (h : ∀ b ∈ l, b < 256) (hl : l ≠ []) :
    b64encode l ≠ "" := by
  intro he
  have hrt := b64decode_b64encode l h
  rw [he] at hrt
  have h0 : b64decode "" = .ok ([] : List Nat) := rfl
  rw [h0] at hrt
  exact hl (by injection hrt with hh; exact hh.symm)

/-! ## Helper lemmas about the configuration builder -/

theorem baseWithGenerated_sse_key (args : CliArgs) (env : CliEnv) (autoGen : Bool)
    (rb : List Nat) : (baseWithGenerated args env autoGen rb).sse_customer_key = none := by
  unfold baseWithGenerated
  split <;> rfl

theorem baseWithGenerated_sse_md5 (args : CliArgs) (env : CliEnv) (autoGen : Bool)
    (rb : List Nat) : (baseWithGenerated args env autoGen rb).sse_customer_key_md5 = none := by
  unfold baseWithGenerated
  split <;> rfl

theorem withSseFields_isEmpty (args : CliArgs) (env : CliEnv) (base : S3Config)
    (key : String) (keyBytes : List Nat) (md5sum : List Nat → List Nat) :
    (withSseFields args env base key keyBytes md5sum).isEmpty = false := by
  simp [withSseFields, S3Config.isEmpty]

/-! ## Claim C2 -/

/-- Claim C2 (as stated) is false on the code: `build_s3_config` with
SSE-C disabled still returns the non-encryption S3 settings, so with a
bucket supplied the result is not `None` even though `disabled` is true. -/
theorem C2_counterexample :
    build_s3_config argsDisabledBucket {} true [] dummyMd5 =
      .ok (some { bucket_name := some "bkt" }) ∧
    (Except.ok (some { bucket_name := some "bkt" : S3Config }) :
      Except ConfigError (Option S3Config)) ≠ .ok none := by
  exact ⟨by decide, by decide⟩

/-- Claim C2 (amended): when `disabled` is true the builder produces no
SSE-C configuration at all — no key, algorithm, digest or generated-key
marker, and no error — regardless of every other input; the result is the
plain (non-encryption) S3 settings, hence `None` exactly when no other
setting was supplied. -/
theorem C2_sse_disabled (args : CliArgs) (env : CliEnv) (autoGen : Bool)
    (rb : List Nat) (m : List Nat → List Nat) (h : args.no_sse_c = true) :
    build_s3_config args env autoGen rb m =
      .ok (if (baseConfig args env).isEmpty then none else some (baseConfig args env)) ∧
    (baseConfig args env).sse_customer_key = none ∧
    (baseConfig args env).sse_customer_algorithm = none ∧
    (baseConfig args env).sse_customer_key_md5 = none ∧
    (baseConfig args env).generated_key = none := by
  refine ⟨?_, rfl, rfl, rfl, rfl⟩
  simp only [build_s3_config, baseWithGenerated, resolvedSseKey, sseKeyGenerated, h, if_true,
    Bool.not_true, Bool.false_and, Bool.false_eq_true, if_false, finishConfig]

/-- Witness for `C2_sse_disabled` at a concrete disabled input. -/
theorem C2_sse_disabled_witness :
    argsDisabledBucket.no_sse_c = true ∧
    build_s3_config argsDisabledBucket {} false [] dummyMd5 =
      .ok (if (baseConfig argsDisabledBucket {}).isEmpty then none
           else some (baseConfig argsDisabledBucket {})) := by
  exact ⟨by decide, (C2_sse_disabled argsDisabledBucket {} false [] dummyMd5 (by decide)).1⟩

/-! ## Claim C6 -/

/-- Claim C6: for every resolved (truthy) SSE-C key, the builder base64-
decodes it; a decode failure is the invalid-encoding `ConfigError`, a
decoded length other than 32 is the invalid-length `ConfigError` reporting
that length, and a decoded length of exactly 32 succeeds. -/
theorem C6_key_validation (args : CliArgs) (env : CliEnv) (autoGen : Bool)
    (rb : List Nat) (m : List Nat → List Nat) (key : String)
    (hkey : resolvedSseKey args env autoGen rb = some key) (hne : key ≠ "") :
    (∀ e : Unit, b64decode key = .error e →
      build_s3_config args env autoGen rb m = .error ConfigError.invalidKeyEncoding) ∧
    (∀ bs : List Nat, b64decode key = .ok bs → bs.length ≠ 32 →
      build_s3_config args env autoGen rb m = .error (ConfigError.invalidKeyLength bs.length)) ∧
    (∀ bs : List Nat, b64decode key = .ok bs → bs.length = 32 →
      ∃ cfg : S3Config, build_s3_config args env autoGen rb m = .ok (some cfg) ∧
        cfg.sse_customer_key = some key) := by
  refine ⟨?_, ?_, ?_⟩
  · intro e he
    simp only [build_s3_config, hkey, hne, if_false, he]
  · intro bs hb hlen
    simp only [build_s3_config, hkey, hne, if_false, hb]
    rw [if_pos hlen]
  · intro bs hb hlen
    simp only [build_s3_config, hkey, hne, if_false, hb]
    rw [if_neg (not_not_intro hlen)]
    refine ⟨withSseFields args env (baseWithGenerated args env autoGen rb) key bs m, ?_, rfl⟩
    simp only [finishConfig, withSseFields_isEmpty, Bool.false_eq_true, if_false]

/-- Witness for `C6_key_validation` at a concrete 32-byte key. -/
theorem C6_key_validation_witness :
    resolvedSseKey argsWithKey {} false [] = some sampleKey32 ∧ sampleKey32 ≠ "" ∧
    b64decode sampleKey32 = .ok (List.replicate 32 0) ∧
    (∃ cfg : S3Config, build_s3_config argsWithKey {} false [] dummyMd5 = .ok (some cfg) ∧
      cfg.sse_customer_key = some sampleKey32) := by
  refine ⟨by decide, by decide, by decide, ?_⟩
  exact (C6_key_validation argsWithKey {} false [] dummyMd5 sampleKey32 (by decide)
    (by decide)).2.2 (List.replicate 32 0) (by decide) (by decide)

/-! ## Claim C7 -/

/-- Claim C7: in every successful build where no explicit (truthy) MD5
digest was supplied, the key-MD5 field of the produced configuration is
the base64 encoding of the MD5 digest of the base64-decoded key bytes —
key and digest are consistent whenever the builder computed the digest
itself. -/
theorem C7_md5_consistency (args : CliArgs) (env : CliEnv) (autoGen : Bool)
    (rb : List Nat) (m : List Nat → List Nat) (cfg : S3Config) (key : String)
    (hmd5 : truthyStr (getValue args.s3_sse_c_key_md5 env.S3_SSE_C_KEY_MD5) = false)
    (hok : build_s3_config args env autoGen rb m = .ok (some cfg))
    (hkey : cfg.sse_customer_key = some key) :
    ∃ bs : List Nat, b64decode key = .ok bs ∧ bs.length = 32 ∧
      cfg.sse_customer_key_md5 = some (b64encode (m bs)) := by
  have hkt : keepTruthy (getValue args.s3_sse_c_key_md5 env.S3_SSE_C_KEY_MD5) = none := by
    unfold keepTruthy
    rw [hmd5]
    rfl
  cases hres : resolvedSseKey args env autoGen rb with
  | none =>
    simp only [build_s3_config, hres, finishConfig] at hok
    cases hemp : (baseWithGenerated args env autoGen rb).isEmpty with
    | true =>
      rw [hemp] at hok
      simp at hok
    | false =>
      rw [hemp] at hok
      simp only [Bool.false_eq_true, if_false] at hok
      injection hok with h1
      injection h1 with h2
      rw [← h2, baseWithGenerated_sse_key] at hkey
      exact Option.noConfusion hkey
  | some key2 =>
    by_cases hkey2 : key2 = ""
    · subst hkey2
      simp only [build_s3_config, hres, if_true, finishConfig] at hok
      cases hemp : (baseWithGenerated args env autoGen rb).isEmpty with
      | true =>
        rw [hemp] at hok
        simp at hok
      | false =>
        rw [hemp] at hok
        simp only [Bool.false_eq_true, if_false] at hok
        injection hok with h1
        injection h1 with h2
        rw [← h2, baseWithGenerated_sse_key] at hkey
        exact Option.noConfusion hkey
    · simp only [build_s3_config, hres] at hok
      rw [if_neg hkey2] at hok
      cases hdec : b64decode key2 with
      | error e =>
        simp only [hdec] at hok
        exact Except.noConfusion hok
      | ok bs =>
        simp only [hdec] at hok
        by_cases hlen : bs.length = 32
        · rw [if_neg (not_not_intro hlen)] at hok
          simp only [finishConfig, withSseFields_isEmpty, Bool.false_eq_true, if_false] at hok
          injection hok with h1
          injection h1 with h2
          have hk2 : cfg.sse_customer_key = some key2 := by
            rw [← h2]
            rfl
          rw [hkey] at hk2
          injection hk2 with hk3
          subst hk3
          refine ⟨bs, hdec, hlen, ?_⟩
          rw [← h2]
          simp only [withSseFields, hkt]
        · rw [if_pos hlen] at hok
          exact Except.noConfusion hok

/-- Witness for `C7_md5_consistency` at a concrete input whose digest the
builder computed itself. -/
theorem C7_md5_consistency_witness :
    truthyStr (getValue argsWithKey.s3_sse_c_key_md5 (CliEnv.mk none none none none
      none none none none none).S3_SSE_C_KEY_MD5) = false ∧
    build_s3_config argsWithKey {} false [] dummyMd5 =
      .ok (some (withSseFields argsWithKey {} (baseConfig argsWithKey {}) sampleKey32
        (List.replicate 32 0) dummyMd5)) ∧
    (∃ bs : List Nat, b64decode sampleKey32 = .ok bs ∧ bs.length = 32 ∧
      (withSseFields argsWithKey {} (baseConfig argsWithKey {}) sampleKey32
        (List.replicate 32 0) dummyMd5).sse_customer_key_md5 =
        some (b64encode (dummyMd5 bs))) := by
  refine ⟨by decide, by decide, ?_⟩
  exact C7_md5_consistency argsWithKey {} false [] dummyMd5
    (withSseFields argsWithKey {} (baseConfig argsWithKey {}) sampleKey32
      (List.replicate 32 0) dummyMd5) sampleKey32 (by decide) (by decide) (by decide)

/-! ## Claim C8 -/

/-- Claim C8 (as stated) is false on the code: with no key material
resolved (no explicit key, no environment key, auto-generation off) but a
bucket supplied, the builder returns the bucket configuration, not
`None`. -/
theorem C8_counterexample :
    build_s3_config argsBucketOnly {} false [] dummyMd5 =
      .ok (some { bucket_name := some "bkt" }) ∧
    (Except.ok (some { bucket_name := some "bkt" : S3Config }) :
      Except ConfigError (Option S3Config)) ≠ .ok none := by
  exact ⟨by decide, by decide⟩

/-- Claim C8 (amended): when SSE-C is not disabled the key material is
resolved in priority order explicit argument, then environment fallback,
then (only when auto-generation is on) a freshly generated key; when none
of these yields a key the result carries no encryption configuration — it
is the plain S3 settings, hence `None` exactly when no other setting was
supplied either. -/
theorem C8_key_priority (args : CliArgs) (env : CliEnv) (autoGen : Bool)
    (rb : List Nat) (h : args.no_sse_c = false) :
    (truthyStr args.s3_sse_c_key = true →
      resolvedSseKey args env autoGen rb = args.s3_sse_c_key) ∧
    (args.s3_sse_c_key = none → truthyStr env.S3_SSE_C_KEY = true →
      resolvedSseKey args env autoGen rb = env.S3_SSE_C_KEY) ∧
    (truthyStr (getValue args.s3_sse_c_key env.S3_SSE_C_KEY) = false → autoGen = true →
      resolvedSseKey args env autoGen rb = some (generate_random_b64_sse_key rb)) ∧
    (truthyStr (getValue args.s3_sse_c_key env.S3_SSE_C_KEY) = false → autoGen = false →
      truthyStr (resolvedSseKey args env autoGen rb) = false ∧
      ∀ m : List Nat → List Nat, build_s3_config args env autoGen rb m =
        .ok (if (baseConfig args env).isEmpty then none
             else some (baseConfig args env))) := by
  refine ⟨?_, ?_, ?_, ?_⟩
  · intro ht
    have harg : getValue args.s3_sse_c_key env.S3_SSE_C_KEY = args.s3_sse_c_key := by
      cases hv : args.s3_sse_c_key with
      | none => rw [hv] at ht; exact absurd ht (by simp [truthyStr])
      | some v => simp [getValue]
    unfold resolvedSseKey
    rw [h]
    simp only [Bool.false_eq_true, if_false, harg, ht]
    simp
  · intro hnone ht
    have harg : getValue args.s3_sse_c_key env.S3_SSE_C_KEY = env.S3_SSE_C_KEY := by
      rw [hnone]
      rfl
    unfold resolvedSseKey
    rw [h]
    simp only [Bool.false_eq_true, if_false, harg, ht]
    simp
  · intro hf hauto
    unfold resolvedSseKey
    rw [h, hauto]
    simp only [Bool.false_eq_true, if_false, hf]
    simp
  · intro hf hauto
    have hres : resolvedSseKey args env autoGen rb = getValue args.s3_sse_c_key env.S3_SSE_C_KEY := by
      unfold resolvedSseKey
      rw [h, hauto]
      simp
    have hgen : sseKeyGenerated args env autoGen = false := by
      unfold sseKeyGenerated
      rw [hauto]
      simp
    have hbase : baseWithGenerated args env autoGen rb = baseConfig args env := by
      unfold baseWithGenerated
      rw [hgen]
      simp
    refine ⟨by rw [hres]; exact hf, ?_⟩
    intro m
    cases hv : getValue args.s3_sse_c_key env.S3_SSE_C_KEY with
    | none =>
      rw [hv] at hres
      simp only [build_s3_config, hres, finishConfig, hbase]
    | some v =>
      have hv0 : v = "" := by
        rw [hv] at hf
        simpa [truthyStr] using hf
      subst hv0
      rw [hv] at hres
      simp only [build_s3_config, hres, if_true, finishConfig, hbase]

/-- Witness for `C8_key_priority` at a concrete input with no key
material and auto-generation off. -/
theorem C8_key_priority_witness :
    argsBucketOnly.no_sse_c = false ∧
    truthyStr (getValue argsBucketOnly.s3_sse_c_key (CliEnv.mk none none none none
      none none none none none).S3_SSE_C_KEY) = false ∧
    (truthyStr (resolvedSseKey argsBucketOnly {} false []) = false ∧
      ∀ m : List Nat → List Nat, build_s3_config argsBucketOnly {} false [] m =
        .ok (if (baseConfig argsBucketOnly {}).isEmpty then none
             else some (baseConfig argsBucketOnly {}))) := by
  refine ⟨by decide, by decide, ?_⟩
  exact (C8_key_priority argsBucketOnly {} false [] (by decide)).2.2.2 (by decide) rfl

/-! ## Claim C10 -/

/-- Claim C10: whenever the auto-generation branch runs (`auto_generate`
on, no truthy explicit or environment key, SSE-C not disabled) and the
random draw is 32 bytes, the generated key is valid base64 decoding to
exactly those 32 bytes, so neither the invalid-length nor the
invalid-encoding error branch can fire and the builder succeeds, with the
key recorded both as the SSE-C key and as the generated-key marker. -/
theorem C10_autogen_safe (args : CliArgs) (env : CliEnv) (rb : List Nat)
    (m : List Nat → List Nat)
    (h1 : args.no_sse_c = false)
    (h2 : truthyStr (getValue args.s3_sse_c_key env.S3_SSE_C_KEY) = false)
    (hlen : rb.length = 32) (hbytes : ∀ b ∈ rb, b < 256) :
    b64decode (generate_random_b64_sse_key rb) = .ok rb ∧
    ∃ cfg : S3Config, build_s3_config args env true rb m = .ok (some cfg) ∧
      cfg.sse_customer_key = some (generate_random_b64_sse_key rb) ∧
      cfg.generated_key = some (generate_random_b64_sse_key rb) := by
  have hrt : b64decode (generate_random_b64_sse_key rb) = .ok rb :=
    b64decode_b64encode rb hbytes
  have hne : generate_random_b64_sse_key rb ≠ "" := by
    apply b64encode_ne_empty rb hbytes
    intro hemp
    rw [hemp] at hlen
    exact absurd hlen (by decide)
  have hres : resolvedSseKey args env true rb = some (generate_random_b64_sse_key rb) := by
    unfold resolvedSseKey
    rw [h1]
    simp [h2]
  have hgen : sseKeyGenerated args env true = true := by
    unfold sseKeyGenerated
    rw [h1]
    simp [h2]
  have hbase : baseWithGenerated args env true rb =
      { baseConfig args env with generated_key := some (generate_random_b64_sse_key rb) } := by
    unfold baseWithGenerated
    rw [hgen]
    simp
  refine ⟨hrt, ?_⟩
  simp only [build_s3_config, hres, hne, if_false, hrt]
  rw [if_neg (not_not_intro hlen)]
  refine ⟨withSseFields args env (baseWithGenerated args env true rb)
    (generate_random_b64_sse_key rb) rb m, ?_, rfl, ?_⟩
  · simp only [finishConfig, withSseFields_isEmpty, Bool.false_eq_true, if_false]
  · show (baseWithGenerated args env true rb).generated_key = _
    rw [hbase]

/-- Witness for `C10_autogen_safe` at a concrete 32-byte random draw. -/
theorem C10_autogen_safe_witness :
    (List.range 32).length = 32 ∧
    b64decode (generate_random_b64_sse_key (List.range 32)) = .ok (List.range 32) ∧
    (∃ cfg : S3Config, build_s3_config {} {} true (List.range 32) dummyMd5 = .ok (some cfg) ∧
      cfg.sse_customer_key = some (generate_random_b64_sse_key (List.range 32)) ∧
      cfg.generated_key = some (generate_random_b64_sse_key (List.range 32))) := by
  refine ⟨by decide, ?_⟩
  have h := C10_autogen_safe {} {} (List.range 32) dummyMd5 (by decide) (by decide)
    (by decide) (by decide)
  exact ⟨h.1, h.2⟩

/-! ## Claim C1 -/

/-- Claim C1 (as stated) is false on the code for a zero maximum wait:
`max_wait_s = 0` is falsy in Python, so line 516 leaves the deadline unset
and the poller fetches instead of timing out — here the first fetch
returns `FINISHED` and the poller succeeds after one fetch. -/
theorem C1_counterexample :
    poll_status (some 0) 0 (fun _ => 0) (fun _ => 0) (fun _ => finSample) 1 =
      (.success (some "https://x/y"), 1, []) ∧
    (poll_status (some 0) 0 (fun _ => 0) (fun _ => 0) (fun _ => finSample) 1).1 ≠
      PollResult.timeout ∧
    (poll_status (some 0) 0 (fun _ => 0) (fun _ => 0) (fun _ => finSample) 1).2.1 ≠ 0 := by
  refine ⟨by decide, by decide, by decide⟩

/-- Claim C1 (amended): for every invocation with a provided nonzero
maximum wait whose deadline is already reached at the first check, the
poller performs zero status fetches and fails with `Timeout`, because the
deadline check precedes each fetch; a zero maximum wait, however, is
treated like no limit at all and never times out. -/
theorem C1_deadline_precheck (w : Int) (startTime : ℚ) (ct pt : Nat → ℚ)
    (fetch : Nat → TaskData) (fuel : Nat)
    (hw : w ≠ 0) (hfuel : fuel ≠ 0) (hpast : startTime + (w : ℚ) ≤ ct 0) :
    poll_status (some w) startTime ct pt fetch fuel = (.timeout, 0, []) := by
  obtain ⟨n, rfl⟩ := Nat.exists_eq_succ_of_ne_zero hfuel
  unfold poll_status
  simp only [mkDeadline]
  rw [if_pos hw]
  simp only [pollLoop, deadlineHit]
  rw [if_pos (by simpa using hpast)]

/-- Witness for `C1_deadline_precheck` at a negative maximum wait. -/
theorem C1_deadline_precheck_witness :
    (-1 : Int) ≠ 0 ∧ (0 : ℚ) + ((-1 : Int) : ℚ) ≤ 0 ∧
    poll_status (some (-1)) 0 (fun _ => 0) (fun _ => 0) (fun _ => finSample) 3 =
      (.timeout, 0, []) := by
  refine ⟨by decide, by norm_num, ?_⟩
  exact C1_deadline_precheck (-1) 0 (fun _ => 0) (fun _ => 0) (fun _ => finSample) 3
    (by decide) (by decide) (by norm_num)

/-! ## Claim C4 -/

/-- Claim C4: on an iteration within the deadline whose fetched status is
`FINISHED`, the poller returns exactly the `download_url` of that status
and performs no further fetches (the fetch count is one more than before
and no later iteration runs); an absent `download_url` still yields
success carrying no URL, not a failure. -/
theorem C4_finished_returns_url (dl : Option ℚ) (ct pt : Nat → ℚ)
    (fetch : Nat → TaskData) (i : Nat) (st : PollSt) (fuel : Nat)
    (hdl : deadlineHit dl (ct i) = false)
    (hs : (fetch i).status = some "FINISHED") :
    pollLoop dl ct pt fetch i st (fuel + 1) =
      (.success ((fetch i).downloadUrl), i + 1, []) ∧
    ((fetch i).downloadUrl = none →
      pollLoop dl ct pt fetch i st (fuel + 1) = (.success none, i + 1, [])) := by
  have hmain : pollLoop dl ct pt fetch i st (fuel + 1) =
      (.success ((fetch i).downloadUrl), i + 1, []) := by
    simp [pollLoop, hdl, hs]
  exact ⟨hmain, fun hurl => by rw [hmain, hurl]⟩

/-- Witness for `C4_finished_returns_url` at a concrete finished status. -/
theorem C4_finished_returns_url_witness :
    deadlineHit none ((fun _ : Nat => (0 : ℚ)) 0) = false ∧
    finSample.status = some "FINISHED" ∧
    pollLoop none (fun _ => 0) (fun _ => 0) (fun _ => finSample) 0 ⟨none, none⟩ 1 =
      (.success (some "https://x/y"), 1, []) := by
  refine ⟨rfl, rfl, ?_⟩
  exact (C4_finished_returns_url none (fun _ => 0) (fun _ => 0) (fun _ => finSample) 0
    ⟨none, none⟩ 0 rfl rfl).1

/-! ## Claim C3 -/

/-- Claim C3: on an iteration within the deadline whose fetched state is
`FAILED`, `CANCELED` or `CANCELLED` the poller fails with the task-failed
exit carrying that state and the server-provided error detail (truthy
`message` field, else truthy `attributes.error` field, else the raw
response); both spellings of cancelled behave identically, and every
other non-`FINISHED` state is non-terminal (the loop carries on). -/
theorem C3_terminal_failure (dl : Option ℚ) (ct pt : Nat → ℚ)
    (fetch : Nat → TaskData) (i : Nat) (st : PollSt) (fuel : Nat)
    (hdl : deadlineHit dl (ct i) = false) :
    (∀ s : String, (fetch i).status = some s →
      s = "FAILED" ∨ s = "CANCELED" ∨ s = "CANCELLED" →
      pollLoop dl ct pt fetch i st (fuel + 1) =
        (.taskFailed (some s) (errDetail (fetch i)), i + 1, [])) ∧
    (∀ ms : String, (fetch i).message = some ms → ms ≠ "" →
      errDetail (fetch i) = .msg ms) ∧
    (truthyStr (fetch i).message = false →
      ∀ es : String, (fetch i).attrError = some es → es ≠ "" →
      errDetail (fetch i) = .msg es) ∧
    (truthyStr (fetch i).message = false → truthyStr (fetch i).attrError = false →
      errDetail (fetch i) = .raw (fetch i)) ∧
    (∀ s : Option String, (fetch i).status = s → s ≠ some "FINISHED" →
      s ≠ some "FAILED" → s ≠ some "CANCELED" → s ≠ some "CANCELLED" →
      (pollLoop dl ct pt fetch i st (fuel + 1)).1 =
        (pollLoop dl ct pt fetch (i + 1)
          (stepTracking st (pt i) (progressOf (fetch i)) (totalOf (fetch i))) fuel).1 ∧
      (pollLoop dl ct pt fetch i st (fuel + 1)).2.1 =
        (pollLoop dl ct pt fetch (i + 1)
          (stepTracking st (pt i) (progressOf (fetch i)) (totalOf (fetch i))) fuel).2.1) := by
  refine ⟨?_, ?_, ?_, ?_, ?_⟩
  · intro s hs hterm
    rcases hterm with rfl | rfl | rfl <;> simp [pollLoop, hdl, hs]
  · intro ms hm hne
    have ht : truthyStr (fetch i).message = true := by
      rw [hm]
      simpa [truthyStr] using hne
    unfold errDetail
    rw [if_pos ht, hm]
    rfl
  · intro hmf es ha hne
    have ht : truthyStr (fetch i).attrError = true := by
      rw [ha]
      simpa [truthyStr] using hne
    unfold errDetail
    rw [if_neg (by simp [hmf]), if_pos ht, ha]
    rfl
  · intro hmf haf
    simp [errDetail, hmf, haf]
  · intro s hs h1 h2 h3 h4
    constructor <;> simp [pollLoop, hdl, hs, h1, h2, h3, h4]

/-- Witness for `C3_terminal_failure` at a concrete cancelled status with
a `message` field. -/
theorem C3_terminal_failure_witness :
    deadlineHit none ((fun _ : Nat => (0 : ℚ)) 0) = false ∧
    cancSample.status = some "CANCELLED" ∧
    pollLoop none (fun _ => 0) (fun _ => 0) (fun _ => cancSample) 0 ⟨none, none⟩ 1 =
      (.taskFailed (some "CANCELLED") (ErrDetail.msg "boom"), 1, []) := by
  refine ⟨rfl, rfl, ?_⟩
  have h := (C3_terminal_failure none (fun _ => 0) (fun _ => 0) (fun _ => cancSample) 0
    ⟨none, none⟩ 0 rfl).1 "CANCELLED" rfl (Or.inr (Or.inr rfl))
  rw [h]
  decide

/-! ## Claim C5 -/

/-- Claim C5: on a non-terminal iteration within the deadline with a
positive total, the printed progress line carries the exact percentage and
the ETA of `computeEta`; that ETA is the numeric estimate
`(total − progress) / ((progress − prev) / (now − prevTime))` whenever a
previous sample exists, the progress strictly advanced and the elapsed
time is positive, and it is "calculating" when no previous sample exists
or the progress did not advance. -/
theorem C5_eta_report (dl : Option ℚ) (ct pt : Nat → ℚ)
    (fetch : Nat → TaskData) (i : Nat) (st : PollSt) (fuel : Nat)
    (hdl : deadlineHit dl (ct i) = false)
    (hnf : (fetch i).status ≠ some "FINISHED")
    (hnt : ¬((fetch i).status = some "FAILED" ∨ (fetch i).status = some "CANCELED" ∨
      (fetch i).status = some "CANCELLED"))
    (htot : 0 < totalOf (fetch i)) :
    (pollLoop dl ct pt fetch i st (fuel + 1)).2.2 =
      ProgressReport.progressBar
        (100 * ((progressOf (fetch i) : Int) : ℚ) / ((totalOf (fetch i) : Int) : ℚ))
        (computeEta st.lastProgress st.lastPollTime (pt i)
          (progressOf (fetch i)) (totalOf (fetch i))) ::
      (pollLoop dl ct pt fetch (i + 1)
        ⟨some (progressOf (fetch i)), some (pt i)⟩ fuel).2.2 ∧
    (∀ p0 : Int, ∀ t0 : ℚ, st.lastProgress = some p0 → st.lastPollTime = some t0 →
      p0 < progressOf (fetch i) → t0 < pt i →
      computeEta st.lastProgress st.lastPollTime (pt i)
          (progressOf (fetch i)) (totalOf (fetch i)) =
        .seconds (((totalOf (fetch i) - progressOf (fetch i) : Int) : ℚ) /
          (((progressOf (fetch i) - p0 : Int) : ℚ) / (pt i - t0)))) ∧
    (st.lastProgress = none →
      computeEta st.lastProgress st.lastPollTime (pt i)
        (progressOf (fetch i)) (totalOf (fetch i)) = .calculating) ∧
    (∀ p0 : Int, st.lastProgress = some p0 → progressOf (fetch i) ≤ p0 →
      computeEta st.lastProgress st.lastPollTime (pt i)
        (progressOf (fetch i)) (totalOf (fetch i)) = .calculating) := by
  refine ⟨?_, ?_, ?_, ?_⟩
  · have h1 : (fetch i).status ≠ some "FAILED" := fun hc => hnt (Or.inl hc)
    have h2 : (fetch i).status ≠ some "CANCELED" := fun hc => hnt (Or.inr (Or.inl hc))
    have h3 : (fetch i).status ≠ some "CANCELLED" := fun hc => hnt (Or.inr (Or.inr hc))
    simp [pollLoop, hdl, hnf, h1, h2, h3, htot, stepTracking]
  · intro p0 t0 hp ht hlt htime
    rw [hp, ht]
    simp only [computeEta]
    rw [if_pos hlt, if_pos ⟨by linarith, by omega⟩]
  · intro hnone
    rw [hnone]
    cases st.lastPollTime <;> simp [computeEta]
  · intro p0 hp hle
    rw [hp]
    cases st.lastPollTime with
    | none => simp [computeEta]
    | some t0 =>
      simp only [computeEta]
      rw [if_neg (by omega)]

/-- Witness for `C5_eta_report`: first sample `(progress 10, t = 0)`,
second sample `(progress 20, t = 10)` with total 100 gives the numeric
estimate of 80 seconds. -/
theorem C5_eta_report_witness :
    (⟨some 10, some 0⟩ : PollSt).lastProgress = some 10 ∧
    (10 : Int) < progressOf runSample ∧ (0 : ℚ) < 10 ∧
    computeEta (some 10) (some 0) 10 (progressOf runSample) (totalOf runSample) =
      .seconds (((totalOf runSample - progressOf runSample : Int) : ℚ) /
        (((progressOf runSample - 10 : Int) : ℚ) / (10 - 0))) ∧
    computeEta (some 10) (some 0) 10 (progressOf runSample) (totalOf runSample) =
      .seconds 80 := by
  have h := (C5_eta_report none (fun _ => 0) (fun _ => 10) (fun _ => runSample) 0
    ⟨some 10, some 0⟩ 0 rfl (by decide) (by decide) (by decide)).2.1 10 0 rfl rfl
    (by decide) (by norm_num)
  refine ⟨rfl, by decide, by norm_num, h, ?_⟩
  rw [h]
  norm_num [totalOf, progressOf, runSample]

/-! ## Claim C9 -/

/-- Claim C9: on a non-terminal iteration the tracking pair
(`last_progress_count`, `last_poll_time`) is replaced only when the
fetched total is positive; when the total is zero or unknown the previous
sample is kept unchanged, and in either case the loop continues with the
`stepTracking` state (so a later rate can span unknown-total
iterations). -/
theorem C9_tracking_update (dl : Option ℚ) (ct pt : Nat → ℚ)
    (fetch : Nat → TaskData) (i : Nat) (st : PollSt) (fuel : Nat)
    (hdl : deadlineHit dl (ct i) = false)
    (hnf : (fetch i).status ≠ some "FINISHED")
    (hnt : ¬((fetch i).status = some "FAILED" ∨ (fetch i).status = some "CANCELED" ∨
      (fetch i).status = some "CANCELLED")) :
    (totalOf (fetch i) ≤ 0 →
      stepTracking st (pt i) (progressOf (fetch i)) (totalOf (fetch i)) = st) ∧
    (0 < totalOf (fetch i) →
      stepTracking st (pt i) (progressOf (fetch i)) (totalOf (fetch i)) =
        ⟨some (progressOf (fetch i)), some (pt i)⟩) ∧
    (pollLoop dl ct pt fetch i st (fuel + 1)).1 =
      (pollLoop dl ct pt fetch (i + 1)
        (stepTracking st (pt i) (progressOf (fetch i)) (totalOf (fetch i))) fuel).1 ∧
    (pollLoop dl ct pt fetch i st (fuel + 1)).2.1 =
      (pollLoop dl ct pt fetch (i + 1)
        (stepTracking st (pt i) (progressOf (fetch i)) (totalOf (fetch i))) fuel).2.1 := by
  have h1 : (fetch i).status ≠ some "FAILED" := fun hc => hnt (Or.inl hc)
  have h2 : (fetch i).status ≠ some "CANCELED" := fun hc => hnt (Or.inr (Or.inl hc))
  have h3 : (fetch i).status ≠ some "CANCELLED" := fun hc => hnt (Or.inr (Or.inr hc))
  refine ⟨?_, ?_, ?_, ?_⟩
  · intro hle
    unfold stepTracking
    rw [if_neg (by omega)]
  · intro hpos
    unfold stepTracking
    rw [if_pos hpos]
  · simp [pollLoop, hdl, hnf, h1, h2, h3]
  · simp [pollLoop, hdl, hnf, h1, h2, h3]

/-- Witness for `C9_tracking_update` at a concrete unknown-total status:
the previous sample is kept unchanged. -/
theorem C9_tracking_update_witness :
    totalOf pendSample ≤ 0 ∧
    stepTracking ⟨some 5, some 1⟩ ((fun _ : Nat => (2 : ℚ)) 0)
      (progressOf pendSample) (totalOf pendSample) = ⟨some 5, some 1⟩ := by
  refine ⟨by decide, ?_⟩
  exact (C9_tracking_update none (fun _ => 0) (fun _ => 2) (fun _ => pendSample) 0
    ⟨some 5, some 1⟩ 0 rfl (by decide) (by decide)).1 (by decide)
